import Mathlib

/-!
Verification of the District Filter Bot core (src/main.py) against its
natural-language specification.

The file shallowly embeds the pure content of the bot handlers:

* `check_rate_limit` — the sliding window rate limiter (timestamps as `Nat`);
* `load_filters` / `save_filters` — the durable store round trip, with the
  surrounding file system and JSON layer abstracted into `StoredFile`
  (the JSON value layer is an identity round trip; the code only transforms
  the top-level keys, which is what is modelled);
* `stop_conversation`, `timeout_callback`, `receive_image`,
  `receive_buttons`, `receive_filter_trigger` — the conversation handlers,
  as pure functions from the handler inputs and the mutable state they touch
  (`context.user_data`, the job queue, the images directory, the filter
  cache) to the successor state, the replies sent, and the returned
  conversation state (`none` models an uncaught Python exception escaping
  the handler; mutations performed before the raise are kept).

Python string operations used by the handlers (`strip`, `lower`, `split`,
`split(sep, 1)`, `startswith`, `str`/`int` on integers) are modelled
directly on `List Char`.  `lower` is modelled on the ASCII letter range and
`int()` without its tolerance for surrounding whitespace/underscores; all
inputs relevant here are ASCII and produced by `str`.
-/

set_option maxRecDepth 4000

/-! ## Python string primitives -/

/-- Python `str.strip` whitespace test (ASCII range). -/
def pyIsSpace (c : Char) : Bool :=
  (c == ' ') || (c == '\t') || (c == '\n') || (c == '\r') || (c == '\x0b') || (c == '\x0c')

/-- Python `str.strip`: drop whitespace from both ends. -/
def pyStripChars (cs : List Char) : List Char :=
  ((cs.dropWhile pyIsSpace).reverse.dropWhile pyIsSpace).reverse

def pyStrip (s : String) : String := String.mk (pyStripChars s.data)

/-- Python `str.lower`, modelled on the ASCII letter range. -/
def pyLowerChar (c : Char) : Char :=
  if ('A' ≤ c) ∧ (c ≤ 'Z') then Char.ofNat (c.toNat + 32) else c

def pyLower (s : String) : String := String.mk (s.data.map pyLowerChar)

/-- Python `str.split(sep)` for a one-character separator. -/
def pySplitChar (sep : Char) : List Char → List (List Char)
  | [] => [[]]
  | c :: cs =>
    match pySplitChar sep cs with
    | [] => [[]]
    | g :: gs => if c == sep then [] :: g :: gs else (c :: g) :: gs

/-- Python `str.split(sep, 1)` for a one-character separator: `none` when the
separator does not occur (which is how `sep in s` is decided), otherwise the
parts before and after the first occurrence. -/
def splitFirst (sep : Char) : List Char → Option (List Char × List Char)
  | [] => none
  | c :: cs =>
    if c == sep then some ([], cs)
    else
      match splitFirst sep cs with
      | none => none
      | some p => some (c :: p.1, p.2)

/-- Python `str.startswith`. -/
def listStartsWith : List Char → List Char → Bool
  | [], _ => true
  | _ :: _, [] => false
  | a :: as, b :: bs => (a == b) && listStartsWith as bs

/-! ## Python `str`/`int` on integers (decimal printing and parsing) -/

/-- Little-endian decimal digits of `n`; the first argument is fuel
(`fuel ≥ n` suffices, and the callers pass `n` itself). -/
def natDigitsRevAux : Nat → Nat → List Nat
  | 0, _ => []
  | _ + 1, 0 => []
  | fuel + 1, n + 1 => ((n + 1) % 10) :: natDigitsRevAux fuel ((n + 1) / 10)

/-- Value of a little-endian digit list (proof-side companion of
`natDigitsRevAux`). -/
def ofDigitsRev : List Nat → Nat
  | [] => 0
  | d :: ds => d + 10 * ofDigitsRev ds

def digitChar (d : Nat) : Char := Char.ofNat (48 + d)

def pyStrNatChars (n : Nat) : List Char :=
  if n = 0 then ['0'] else ((natDigitsRevAux n n).reverse.map digitChar)

/-- Python `str` on an `int`. -/
def pyStr (i : Int) : String :=
  if i < 0 then String.mk ('-' :: pyStrNatChars i.natAbs)
  else String.mk (pyStrNatChars i.toNat)

def parseDigitsAux : Nat → List Char → Option Nat
  | acc, [] => some acc
  | acc, c :: cs => if c.isDigit then parseDigitsAux (10 * acc + (c.toNat - 48)) cs else none

/-- A nonempty all-digit run, as required after an optional sign. -/
def parseDigitsList : List Char → Option Nat
  | [] => none
  | c :: cs => parseDigitsAux 0 (c :: cs)

/-- Python `int` on a character list: an optional sign followed by a
nonempty digit run; `none` models the `ValueError` raise. -/
def pyIntChars : List Char → Option Int
  | [] => none
  | c :: cs =>
    if c = ('-') then (parseDigitsList cs).map (fun n => -(Int.ofNat n))
    else if c = ('+') then (parseDigitsList cs).map Int.ofNat
    else (parseDigitsList (c :: cs)).map Int.ofNat

/-- Python `int` on a string (modelled without the tolerance for surrounding
whitespace and underscores). -/
def pyInt (s : String) : Option Int := pyIntChars s.data

/-! ## Association lists (Python `dict` with insertion order) -/

/-- Dict read `d.get(k)` / `k in d` on an insertion-ordered dict. -/
def getAssoc {α β : Type} [DecidableEq α] (k : α) : List (α × β) → Option β
  | [] => none
  | p :: rest => if p.1 = k then some p.2 else getAssoc k rest

/-- Dict write `d[k] = v`: update in place when the key exists, else append at the end
(Python dict insertion order). -/
def setAssoc {α β : Type} [DecidableEq α] (k : α) (v : β) : List (α × β) → List (α × β)
  | [] => [(k, v)]
  | p :: rest => if p.1 = k then (k, v) :: rest else p :: setAssoc k v rest

/-- Dict read `d.get(k)` on a dict whose values may themselves be `None`:
an absent key and a stored `None` both read back as `None`. -/
def dictGet {α : Type} : Option (Option α) → Option α
  | none => none
  | some v => v

/-! ## Rate limiter (src/main.py lines 39-82) -/

def RATE_LIMIT : Nat := 5
def TIME_WINDOW : Nat := 60

/-- The pruning pass at the top of `check_rate_limit`: the window of every user
drops timestamps `t` with `now - t ≥ TIME_WINDOW`, and users left with an
empty window are removed from the tracker. -/
def pruneTracker (now : Nat) (tr : List (Nat × List Nat)) : List (Nat × List Nat) :=
  (tr.map (fun p => (p.1, p.2.filter (fun t => decide (now - t < TIME_WINDOW))))).filter
    (fun p => !p.2.isEmpty)

/-- In-place append of `now` to the window stored under `uid`. -/
def updateW (uid now : Nat) : List (Nat × List Nat) → List (Nat × List Nat)
  | [] => []
  | p :: rest => if p.1 = uid then (p.1, p.2 ++ [now]) :: rest else p :: updateW uid now rest

/-- `check_rate_limit` (lines 66-82): returns the admission verdict and the
tracker after the call.  `now` stands for `time.time()`. -/
def check_rate_limit (now uid : Nat) (tr : List (Nat × List Nat)) :
    Bool × List (Nat × List Nat) :=
  match getAssoc uid (pruneTracker now tr) with
  | none => (true, pruneTracker now tr ++ [(uid, [now])])
  | some w =>
    if w.length < RATE_LIMIT then (true, updateW uid now (pruneTracker now tr))
    else (false, pruneTracker now tr)

/-- The pruned window of one user. -/
def windowOf (uid : Nat) (tr : List (Nat × List Nat)) : List Nat :=
  (getAssoc uid tr).getD []

/-- Run `check_rate_limit` for one user at a list of successive times,
collecting the verdicts. -/
def rlRun (uid : Nat) : List Nat → List (Nat × List Nat) → List Bool
  | [], _ => []
  | t :: ts, tr =>
    match check_rate_limit t uid tr with
    | (b, tr2) => b :: rlRun uid ts tr2

/-! ## Data model of the conversation (src/main.py lines 27-43, 113-313) -/

def AWAITING_IMAGE : Int := 1
def AWAITING_BUTTONS : Int := 2
def AWAITING_FILTER_TRIGGER : Int := 3

namespace ConversationHandler

def END : Int := -1

end ConversationHandler

structure Button where
  text : String
  url : String
deriving DecidableEq, Repr

structure FilterData where
  image : Option String
  buttons : List Button
  created_by : Nat
  created_at : String
deriving DecidableEq, Repr

/-- The trigger table of one chat, insertion ordered. -/
abbrev ChatTable := List (String × FilterData)

/-- The global `filters_cache`: chat id to trigger table, insertion ordered. -/
abbrev FiltersCache := List (Int × ChatTable)

/-- Model of `context.user_data`.  Each field is `none` when the key is absent from the
dict; `filter_image_path` and `filter_image_filename` can also be present with
the value `None` (after `/skip`), hence the nested `Option`. -/
structure UserData where
  filter_chat_id : Option Int
  filter_image_path : Option (Option String)
  filter_image_filename : Option (Option String)
  filter_buttons : Option (List Button)
  timeout_job : Option String
deriving DecidableEq, Repr

/-- Result of `context.user_data.clear()`. -/
def UserData.empty : UserData := ⟨none, none, none, none, none⟩

/-! ## `stop_conversation` (lines 113-122) -/

structure StopResult where
  ud : UserData
  files : List String
  jobs : List String
  replies : List String
  ret : Option Int
deriving DecidableEq, Repr

/-- Model of `stop_conversation`: `files` is the set of paths present on disk, `jobs`
the names of the pending `job_queue` jobs.  The handler never touches the job
queue.  When `filter_image_path` is present with value `None` (the `/skip`
path), `os.path.exists(None)` raises `TypeError` (only `OSError`/`ValueError`
are swallowed inside `os.path.exists`), the handler dies before any cleanup:
modelled by `ret := none` with all state unchanged and no reply sent.
A failing `os.remove` is caught and logged; the normal outcome (file removed)
is modelled. -/
def stop_conversation (ud : UserData) (files jobs : List String) : StopResult :=
  match ud.filter_image_path with
  | none =>
    { ud := UserData.empty, files := files, jobs := jobs,
      replies := ["Operation canceled."], ret := some ConversationHandler.END }
  | some none =>
    { ud := ud, files := files, jobs := jobs, replies := [], ret := none }
  | some (some p) =>
    { ud := UserData.empty, files := files.erase p, jobs := jobs,
      replies := ["Operation canceled."], ret := some ConversationHandler.END }

/-! ## `timeout_callback` and `receive_image` (lines 157-196) -/

/-- Model of `timeout_callback` (lines 157-162): the whole body is one `send_message`;
it returns the messages sent.  It reads neither the conversation state nor
`user_data`, and writes nothing. -/
def timeout_callback (_chat_id : Int) : List String :=
  ["⏰ Time\x27s up! Filter creation canceled. Use /filter to start again."]

/-- The per-user slice of the running system: the `ConversationHandler` state
for this (chat, user), their `user_data`, the pending job names, and the
contents of the images directory. -/
structure SysState where
  conv : Int
  ud : UserData
  jobs : List String
  files : List String
deriving DecidableEq, Repr

/-- A scheduled job firing: the scheduler removes the job from the queue and
runs `timeout_callback`.  The callback has no access to the conversation
state or `user_data`, so they are carried over unchanged. -/
def fire_timeout (name : String) (chat_id : Int) (s : SysState) : SysState × List String :=
  ({ s with jobs := s.jobs.filter (fun m => !(m == name)) }, timeout_callback chat_id)

/-- Model of `receive_image` (lines 164-196): removes any job named by
the `timeout_job` entry of `user_data`, then downloads the photo (`downloadOk = false`
models a `TelegramError`, answered with a failure message and
`ConversationHandler.END`).  On success the image is written to
`data/images/{chat_id}_{timestamp}.jpg` and staged in `user_data`.
A missing `filter_chat_id` key would raise `KeyError` (uncaught): `none`
return with the job removal already performed. -/
def receive_image (s : SysState) (downloadOk : Bool) (timestamp : String) :
    SysState × List String × Option Int :=
  let jobs1 := match s.ud.timeout_job with
    | some n => s.jobs.filter (fun m => !(m == n))
    | none => s.jobs
  if downloadOk then
    match s.ud.filter_chat_id with
    | none => ({ s with jobs := jobs1 }, [], none)
    | some chat_id =>
      let filename := pyStr chat_id ++ "_" ++ timestamp ++ ".jpg"
      let image_path := "data/images/" ++ filename
      ({ s with jobs := jobs1,
                files := image_path :: s.files,
                ud := { s.ud with filter_image_path := some (some image_path),
                                  filter_image_filename := some (some filename) } },
       ["✅ Image received! Now, please send the buttons you want to include in format:\n`text|url, text2|url2`\n\nOr send /skip if you don\x27t want buttons."],
       some AWAITING_BUTTONS)
  else
    ({ s with jobs := jobs1 },
     ["❌ Failed to download image. Please try again with /filter command."],
     some ConversationHandler.END)

/-! ## `receive_buttons` (lines 214-270) -/

/-- The comma-split, per-segment-stripped pieces of the (stripped) input. -/
def button_segments (text : String) : List (List Char) :=
  (pySplitChar (',') (pyStripChars text.data)).map pyStripChars

/-- One loop iteration of `receive_buttons`: reject a segment without `|`
with the generic format message; otherwise split at the first `|`, strip the
parts, and require the url to start with `http://` or `https://` (an invalid
url is echoed in the report). -/
def parse_button_def (seg : List Char) : Except String Button :=
  match splitFirst ('|') seg with
  | none =>
    Except.error ("❌ Invalid button format. Please use `text|url, text2|url2` format or /skip.")
  | some p =>
    let url := pyStripChars p.2
    if listStartsWith ("http://".data) url || listStartsWith ("https://".data) url then
      Except.ok (Button.mk (String.mk (pyStripChars p.1)) (String.mk url))
    else
      Except.error ("❌ Invalid URL: " ++ String.mk url ++
        "\nPlease enter a valid URL starting with http:// or https://")

/-- The whole loop: the first offending segment aborts the batch. -/
def parse_buttons : List (List Char) → Except String (List Button)
  | [] => Except.ok []
  | seg :: rest =>
    match parse_button_def seg with
    | Except.error e => Except.error e
    | Except.ok b =>
      match parse_buttons rest with
      | Except.error e => Except.error e
      | Except.ok bs => Except.ok (b :: bs)

/-- Model of `receive_buttons`: result is (`user_data` after, returned conversation
state, replies sent).  Only a fully successful parse commits
`filter_buttons`; any failure leaves `user_data` untouched and stays in
`AWAITING_BUTTONS`. -/
def receive_buttons (ud : UserData) (text : String) : UserData × Int × List String :=
  if text = ("/skip") then
    ({ ud with filter_buttons := some [] }, AWAITING_FILTER_TRIGGER,
     ["🔄 Skipped buttons. Finally, please send the trigger word or phrase for this filter."])
  else
    match parse_buttons (button_segments text) with
    | Except.error e => (ud, AWAITING_BUTTONS, [e])
    | Except.ok bs =>
      ({ ud with filter_buttons := some bs }, AWAITING_FILTER_TRIGGER,
       ["✅ Buttons configured! Here\x27s a preview:",
        "Finally, please send the trigger word or phrase for this filter."])

/-! ## `receive_filter_trigger` (lines 272-313) -/

def trigger_exists_message (trigger : String) : String :=
  "❌ A filter with trigger \x27" ++ trigger ++ "\x27 already exists in this chat. " ++
    "Please use /deletefilter " ++ trigger ++ " first or choose a different trigger."

def save_warning_message : String :=
  "⚠️ There was an issue saving your filter, but it will work until the bot restarts."

def confirmation_message (trigger : String) (fd : FilterData) : String :=
  "✅ Filter created successfully!\n\n" ++
    "• Trigger: `" ++ trigger ++ "`\n" ++
    "• Image: " ++ (if fd.image.isSome then ("Yes") else ("No")) ++ "\n" ++
    "• Buttons: " ++ toString fd.buttons.length ++ "\n\n" ++
    "Users can now trigger this filter by typing: `" ++ trigger ++ "`"

/-- The `filter_data` dict built at lines 289-294. -/
def mkFilterData (ud : UserData) (uid : Nat) (now : String) : FilterData :=
  { image := dictGet ud.filter_image_filename,
    buttons := (ud.filter_buttons).getD [],
    created_by := uid,
    created_at := now }

/-- Model of `receive_filter_trigger`, after the lazy cache initialization at lines
277-279 (`cache` is the effective in-memory `filters_cache`).  `saveOk` is
the return value of `save_filters` (false = durable write failed with
`IOError`).  Result: the cache after the call, `user_data` after, returned
conversation state, replies.  `none` models the `KeyError` raise when
`filter_chat_id` is absent. -/
def receive_filter_trigger (ud : UserData) (cache : FiltersCache) (text : String)
    (uid : Nat) (now : String) (saveOk : Bool) :
    Option (FiltersCache × UserData × Int × List String) :=
  match ud.filter_chat_id with
  | none => none
  | some chat_id =>
    let trigger := pyLower (pyStrip text)
    let chat_filters := (getAssoc chat_id cache).getD []
    match getAssoc trigger chat_filters with
    | some _ =>
      some (cache, ud, AWAITING_FILTER_TRIGGER, [trigger_exists_message trigger])
    | none =>
      let filter_data := mkFilterData ud uid now
      some (setAssoc chat_id (setAssoc trigger filter_data chat_filters) cache,
            UserData.empty, ConversationHandler.END,
            (if saveOk then [] else [save_warning_message]) ++
              [confirmation_message trigger filter_data])

/-! ## `load_filters` / `save_filters` (lines 45-64) -/

/-- The durable storage file as `load_filters` can observe it.  `V` is the
type of the JSON values under the top-level keys (the JSON round trip is the
identity on them; the code transforms only the keys).  `validNonObj` is
well-formed JSON whose top level is not an object. -/
inductive StoredFile (V : Type) where
  | absent : StoredFile V
  | unreadable : StoredFile V
  | invalidJson : StoredFile V
  | validNonObj : StoredFile V
  | validObj : List (String × V) → StoredFile V
deriving DecidableEq, Repr

/-- The dict comprehension `{int(k): v for k, v in data.items()}`: the first
non-numeric key raises `ValueError` (uncaught in `load_filters`). -/
def intKeys {V : Type} : List (String × V) → Except String (List (Int × V))
  | [] => Except.ok []
  | p :: rest =>
    match pyInt p.1 with
    | none => Except.error ("ValueError: invalid literal for int() with base 10: " ++ p.1)
    | some k =>
      match intKeys rest with
      | Except.error e => Except.error e
      | Except.ok r => Except.ok ((k, p.2) :: r)

/-- Model of `load_filters`: a missing file, an unreadable file (`IOError`) and
syntactically invalid JSON (`JSONDecodeError`) all yield the empty store;
any other exception escapes (`Except.error`). -/
def load_filters {V : Type} : StoredFile V → Except String (List (Int × V))
  | StoredFile.absent => Except.ok []
  | StoredFile.unreadable => Except.ok []
  | StoredFile.invalidJson => Except.ok []
  | StoredFile.validNonObj => Except.error ("AttributeError: list object has no attribute items")
  | StoredFile.validObj fields => intKeys fields

/-- Model of `save_filters`, as the file content produced by a successful write:
`{str(k): v for k, v in filters_data.items()}`, dumped in insertion order. -/
def save_filters {V : Type} (filters_data : List (Int × V)) : StoredFile V :=
  StoredFile.validObj (filters_data.map (fun p => (pyStr p.1, p.2)))

/-! ## Sample values used by concrete witnesses -/

def sampleFilter : FilterData :=
  { image := none, buttons := [], created_by := 0, created_at := "2025-01-01T00:00:00" }

def sampleChatTable : ChatTable := [("hello", sampleFilter)]

/-- Validity of one comma-segment as `receive_buttons` actually checks it:
a `|` occurs (split at the first one), and the stripped part after the first
`|` starts with `http://` or `https://`. -/
def segmentOk (seg : List Char) : Bool :=
  match splitFirst ('|') seg with
  | none => false
  | some p =>
    listStartsWith ("http://".data) (pyStripChars p.2) ||
      listStartsWith ("https://".data) (pyStripChars p.2)

/-- The button a valid segment parses to. -/
def segButton (seg : List Char) : Button :=
  match splitFirst ('|') seg with
  | none => Button.mk ("") ("")
  | some p => Button.mk (String.mk (pyStripChars p.1)) (String.mk (pyStripChars p.2))

/-- Number of occurrences of a character (used to state the claimed
"exactly one `|`" condition, which the code does not check). -/
def countChar (c : Char) (l : List Char) : Nat := (l.filter (fun x => x == c)).length

/-- A `user_data` with an image and a button already staged (used to witness
frame conditions). -/
def stagedUserData : UserData :=
  { filter_chat_id := some 5,
    filter_image_path := some (some ("data/images/5_20240101_120000.jpg")),
    filter_image_filename := some (some ("5_20240101_120000.jpg")),
    filter_buttons := some [Button.mk ("Old") ("http://old.example")],
    timeout_job := none }

/-- A session that has just entered AwaitingImage via `/filter` (chat 5,
user 7): the timeout job is scheduled and named in `user_data`. -/
def awaitingImageState : SysState :=
  { conv := AWAITING_IMAGE,
    ud := { filter_chat_id := some 5, filter_image_path := none,
            filter_image_filename := none, filter_buttons := none,
            timeout_job := some ("filter_timeout_7") },
    jobs := [("filter_timeout_7")],
    files := [] }

/-- `user_data` right after `skip_image`: the image keys are present with
value `None`. -/
def skippedImageUserData : UserData :=
  { filter_chat_id := some 5, filter_image_path := some none,
    filter_image_filename := some none, filter_buttons := some [],
    timeout_job := none }

/-! ## Helper lemmas: association lists -/

theorem getAssoc_append_self {β : Type} (uid : Nat) (l : List (Nat × β)) (v : β)
    (h : getAssoc uid l = none) : getAssoc uid (l ++ [(uid, v)]) = some v := by
  induction l with
  | nil => simp [getAssoc]
  | cons p rest ih =>
    by_cases hp : p.1 = uid
    · simp [getAssoc, hp] at h
    · simp only [getAssoc, hp, if_false] at h
      simp only [List.cons_append, getAssoc, hp, if_false]
      exact ih h

theorem getAssoc_updateW (uid now : Nat) (l : List (Nat × List Nat)) (w : List Nat)
    (h : getAssoc uid l = some w) :
    getAssoc uid (updateW uid now l) = some (w ++ [now]) := by
  induction l with
  | nil => simp [getAssoc] at h
  | cons p rest ih =>
    by_cases hp : p.1 = uid
    · simp only [getAssoc, hp, if_true] at h
      simp only [updateW, hp, if_true, getAssoc]
      injection h with h2
      rw [h2]
    · simp only [getAssoc, hp, if_false] at h
      simp only [updateW, hp, if_false, getAssoc]
      exact ih h

theorem getAssoc_setAssoc_self {α β : Type} [DecidableEq α] (k : α) (v : β)
    (l : List (α × β)) : getAssoc k (setAssoc k v l) = some v := by
  induction l with
  | nil => simp [setAssoc, getAssoc]
  | cons p rest ih =>
    by_cases hp : p.1 = k
    · simp [setAssoc, hp, getAssoc]
    · simp [setAssoc, hp, getAssoc, ih]

/-! ## C1: the rate limiter -/

/-- C1: `check_rate_limit` returns true and appends the current timestamp to
the window of the calling user exactly when, after pruning entries older
than `TIME_WINDOW`, that window holds fewer than `RATE_LIMIT` entries;
otherwise it returns false and performs no mutation beyond the pruning.
Concretely, 5 calls by one user within 60 seconds all return true, a 6th
within the same window returns false, and once 60 seconds have elapsed from
the first call a new call returns true again. -/
theorem C1_check_rate_limit (now uid : Nat) (tr : List (Nat × List Nat)) :
    ((check_rate_limit now uid tr).1 = true ↔
      (windowOf uid (pruneTracker now tr)).length < RATE_LIMIT)
    ∧ ((check_rate_limit now uid tr).1 = true →
        windowOf uid (check_rate_limit now uid tr).2 =
          windowOf uid (pruneTracker now tr) ++ [now])
    ∧ ((check_rate_limit now uid tr).1 = false →
        (check_rate_limit now uid tr).2 = pruneTracker now tr)
    ∧ rlRun 7 ([0, 12, 24, 36, 48, 59, 60]) ([]) =
        [true, true, true, true, true, false, true] := by
  cases h : getAssoc uid (pruneTracker now tr) with
  | none =>
    refine ⟨?_, ?_, ?_, by decide⟩
    · simp [check_rate_limit, h, windowOf, RATE_LIMIT]
    · intro _
      simp only [check_rate_limit, h, windowOf]
      rw [getAssoc_append_self uid _ _ h]
      rfl
    · intro hfalse
      simp [check_rate_limit, h] at hfalse
  | some w =>
    by_cases hl : w.length < RATE_LIMIT
    · refine ⟨?_, ?_, ?_, by decide⟩
      · simp [check_rate_limit, h, hl, windowOf]
      · intro _
        simp only [check_rate_limit, h, hl, if_true, windowOf]
        rw [getAssoc_updateW uid now _ w h]
        rfl
      · intro hfalse
        simp [check_rate_limit, h, hl] at hfalse
    · refine ⟨?_, ?_, ?_, by decide⟩
      · simp [check_rate_limit, h, hl, windowOf]
      · intro htrue
        simp [check_rate_limit, h, hl] at htrue
      · intro _
        simp [check_rate_limit, h, hl]

/-- C1 witness: a concrete admission (the window after the call is the pruned
window plus the new timestamp) and a concrete denial (the tracker after the
call is exactly the pruned tracker). -/
theorem C1_check_rate_limit_witness :
    windowOf 7 (check_rate_limit 99 7 ([(7, [90])])).2 =
      windowOf 7 (pruneTracker 99 ([(7, [90])])) ++ [99]
    ∧ (check_rate_limit 50 7 ([(7, [0, 10, 20, 30, 40])])).2 =
        pruneTracker 50 ([(7, [0, 10, 20, 30, 40])]) :=
  ⟨(C1_check_rate_limit 99 7 ([(7, [90])])).2.1 (by decide),
   (C1_check_rate_limit 50 7 ([(7, [0, 10, 20, 30, 40])])).2.2.1 (by decide)⟩

/-! ## C3: the AwaitingImage timeout -/

/-- C3 (refuting): when the 60-second timeout fires on a session in
AwaitingImage, `timeout_callback` only sends the notification — the
conversation state is still `AWAITING_IMAGE` (not Idle), `user_data` is fully
retained, and a subsequent image from the same user is processed normally:
`receive_image` stages the image and advances to `AWAITING_BUTTONS` instead
of ignoring the input.  The session is not destroyed and is effectively
resurrected by later input, contrary to the claim. -/
theorem C3_timeout_keeps_session :
    (fire_timeout ("filter_timeout_7") 5 awaitingImageState).1.conv = AWAITING_IMAGE
    ∧ (fire_timeout ("filter_timeout_7") 5 awaitingImageState).1.ud = awaitingImageState.ud
    ∧ (fire_timeout ("filter_timeout_7") 5 awaitingImageState).2 =
        ["⏰ Time\x27s up! Filter creation canceled. Use /filter to start again."]
    ∧ (receive_image (fire_timeout ("filter_timeout_7") 5 awaitingImageState).1
         true ("20240101_120000")).2.2 = some AWAITING_BUTTONS
    ∧ (receive_image (fire_timeout ("filter_timeout_7") 5 awaitingImageState).1
         true ("20240101_120000")).1.ud.filter_image_filename =
        some (some ("5_20240101_120000.jpg")) := by
  decide

/-! ## C4: `/stop` cleanup -/

/-- C4 (refuting): `/stop` does not perform the claimed cleanup in every
non-Idle state.  (a) After `/skip` the staged image reference is `None`, and
`stop_conversation` dies on `os.path.exists(None)` (`TypeError`): no data is
cleared, no cancellation is reported, the handler raises.  (b) From
AwaitingImage with the timeout pending, the handler completes but never
cancels the pending timeout job: the job queue is returned unchanged. -/
theorem C4_stop_conversation_bug :
    (stop_conversation skippedImageUserData [] []).ret = none
    ∧ (stop_conversation skippedImageUserData [] []).ud = skippedImageUserData
    ∧ (stop_conversation skippedImageUserData [] []).replies = []
    ∧ (stop_conversation awaitingImageState.ud awaitingImageState.files
        awaitingImageState.jobs).ret = some ConversationHandler.END
    ∧ (stop_conversation awaitingImageState.ud awaitingImageState.files
        awaitingImageState.jobs).jobs = [("filter_timeout_7")] := by
  decide

/-! ## Helper lemmas: button parsing -/

theorem parse_button_def_ok (seg : List Char) (h : segmentOk seg = true) :
    parse_button_def seg = Except.ok (segButton seg) := by
  cases hs : splitFirst ('|') seg with
  | none =>
    have h2 : segmentOk seg = false := by unfold segmentOk; rw [hs]
    rw [h2] at h
    exact absurd h (by decide)
  | some p =>
    have h2 : (listStartsWith ("http://".data) (pyStripChars p.2) ||
        listStartsWith ("https://".data) (pyStripChars p.2)) = true := by
      have h3 := h
      unfold segmentOk at h3
      rw [hs] at h3
      exact h3
    simp only [parse_button_def, segButton, hs, h2, if_true]

theorem parse_button_def_err (seg : List Char) (h : segmentOk seg = false) :
    ∃ e, parse_button_def seg = Except.error e := by
  cases hs : splitFirst ('|') seg with
  | none => exact ⟨_, by rw [parse_button_def, hs]⟩
  | some p =>
    have h2 : (listStartsWith ("http://".data) (pyStripChars p.2) ||
        listStartsWith ("https://".data) (pyStripChars p.2)) = false := by
      have h3 := h
      unfold segmentOk at h3
      rw [hs] at h3
      exact h3
    refine ⟨("❌ Invalid URL: " ++ String.mk (pyStripChars p.2) ++
      "\nPlease enter a valid URL starting with http:// or https://"), ?_⟩
    rw [parse_button_def, hs]
    simp only [h2, Bool.false_eq_true, if_false]

theorem parse_buttons_ok (segs : List (List Char)) (h : segs.all segmentOk = true) :
    parse_buttons segs = Except.ok (segs.map segButton) := by
  induction segs with
  | nil => rfl
  | cons seg rest ih =>
    simp only [List.all_cons, Bool.and_eq_true] at h
    simp only [parse_buttons, parse_button_def_ok seg h.1, ih h.2, List.map]

theorem parse_buttons_err (segs : List (List Char)) (h : segs.all segmentOk = false) :
    ∃ e, parse_buttons segs = Except.error e := by
  induction segs with
  | nil => simp [List.all_nil] at h
  | cons seg rest ih =>
    simp only [List.all_cons, Bool.and_eq_false_iff] at h
    cases h with
    | inl hseg =>
      obtain ⟨e, he⟩ := parse_button_def_err seg hseg
      exact ⟨e, by simp only [parse_buttons, he]⟩
    | inr hrest =>
      cases hok : parse_button_def seg with
      | error e => exact ⟨e, by simp only [parse_buttons, hok]⟩
      | ok b =>
        obtain ⟨e, he⟩ := ih hrest
        exact ⟨e, by simp only [parse_buttons, hok, he]⟩

/-! ## C5: button parsing -/

/-- C5 counterexample: the claim requires every segment to contain exactly
one `|` for parsing to succeed.  The input `A|http://a.com|x` is a single
segment containing two `|`, yet `receive_buttons` accepts it (the code splits
at the first `|` only), staging one button whose url keeps the second `|`.
Moreover a segment lacking `|` (`ABC`) is reported with a fixed generic
message that does not name the offending segment. -/
theorem C5_counterexample :
    countChar ('|') (("A|http://a.com|x").data) = 2
    ∧ (receive_buttons UserData.empty ("A|http://a.com|x")).2.1 = AWAITING_FILTER_TRIGGER
    ∧ (receive_buttons UserData.empty ("A|http://a.com|x")).1.filter_buttons =
        some [Button.mk ("A") ("http://a.com|x")]
    ∧ (receive_buttons UserData.empty ("ABC")).2.2 =
        ["❌ Invalid button format. Please use `text|url, text2|url2` format or /skip."] := by
  decide

/-- C5 (amended): button input is split on commas and each segment stripped;
parsing succeeds exactly when every segment contains at least one `|`, where
the text part is the stripped prefix before the first `|` and the url part is
the stripped remainder after it, and the url starts with `http://` or
`https://`.  Any violation aborts the whole batch — no button from the batch
is staged and the state stays `AWAITING_BUTTONS` (an invalid url is echoed in
the report; a segment lacking `|` gets a generic format message).
`A|http://a.com, B|https://b.com` parses to exactly those two buttons in
order, while `A|ftp://x` (named in the reply) and a segment lacking `|` are
rejected. -/
theorem C5_button_parsing (ud : UserData) (text : String) (hskip : text ≠ ("/skip")) :
    (((receive_buttons ud text).2.1 = AWAITING_FILTER_TRIGGER) ↔
      (button_segments text).all segmentOk = true)
    ∧ ((button_segments text).all segmentOk = true →
        (receive_buttons ud text).1 =
          { ud with filter_buttons := some ((button_segments text).map segButton) })
    ∧ ((button_segments text).all segmentOk = false →
        (receive_buttons ud text).1 = ud
        ∧ (receive_buttons ud text).2.1 = AWAITING_BUTTONS)
    ∧ (receive_buttons UserData.empty ("A|http://a.com, B|https://b.com")).1.filter_buttons =
        some [Button.mk ("A") ("http://a.com"), Button.mk ("B") ("https://b.com")]
    ∧ (receive_buttons UserData.empty ("A|http://a.com, B|https://b.com")).2.1 =
        AWAITING_FILTER_TRIGGER
    ∧ (receive_buttons UserData.empty ("A|ftp://x")).2.1 = AWAITING_BUTTONS
    ∧ (receive_buttons UserData.empty ("A|ftp://x")).2.2 =
        ["❌ Invalid URL: ftp://x\nPlease enter a valid URL starting with http:// or https://"]
    ∧ (receive_buttons UserData.empty ("A, B|https://b.com")).2.1 = AWAITING_BUTTONS := by
  refine ⟨?_, ?_, ?_, by decide, by decide, by decide, by decide, by decide⟩
  · constructor
    · intro hstate
      by_contra hbad
      rw [Bool.not_eq_true] at hbad
      obtain ⟨e, he⟩ := parse_buttons_err _ hbad
      rw [receive_buttons, if_neg hskip, he] at hstate
      have h23 : AWAITING_BUTTONS = AWAITING_FILTER_TRIGGER := hstate
      exact absurd h23 (by decide)
    · intro hok
      rw [receive_buttons, if_neg hskip, parse_buttons_ok _ hok]
  · intro hok
    rw [receive_buttons, if_neg hskip, parse_buttons_ok _ hok]
  · intro hbad
    obtain ⟨e, he⟩ := parse_buttons_err _ hbad
    rw [receive_buttons, if_neg hskip, he]
    exact ⟨rfl, rfl⟩

/-- C5 witness: the amended theorem applied at the concrete valid input. -/
theorem C5_button_parsing_witness :
    (receive_buttons UserData.empty ("A|http://a.com, B|https://b.com")).1 =
      { UserData.empty with
          filter_buttons := some ((button_segments ("A|http://a.com, B|https://b.com")).map segButton) } :=
  (C5_button_parsing UserData.empty ("A|http://a.com, B|https://b.com")
    (by decide)).2.1 (by decide)

/-! ## C6: failed button parse leaves staged state untouched -/

/-- C6: when button input fails validation (some segment lacks `|` or has a
url with a bad scheme), `receive_buttons` stays in `AWAITING_BUTTONS` and
returns `user_data` unchanged: the staged image reference and any previously
staged buttons are untouched, and no partial button list is committed. -/
theorem C6_failed_parse_frame (ud : UserData) (text : String)
    (hskip : text ≠ ("/skip"))
    (hbad : (button_segments text).all segmentOk = false) :
    (receive_buttons ud text).1 = ud
    ∧ (receive_buttons ud text).2.1 = AWAITING_BUTTONS := by
  obtain ⟨e, he⟩ := parse_buttons_err _ hbad
  rw [receive_buttons, if_neg hskip, he]
  exact ⟨rfl, rfl⟩

/-- C6 witness: a rejected batch (`A|ftp://x`) against a session that already
staged an image and a button leaves that `user_data` exactly as it was. -/
theorem C6_failed_parse_frame_witness :
    (receive_buttons stagedUserData ("A|ftp://x")).1 = stagedUserData
    ∧ (receive_buttons stagedUserData ("A|ftp://x")).2.1 = AWAITING_BUTTONS :=
  C6_failed_parse_frame stagedUserData ("A|ftp://x") (by decide) (by decide)

/-! ## C2: duplicate trigger rejection -/

/-- C2: in AwaitingTrigger the input is normalized by trim plus lower-case;
if the table of the chat already contains the normalized trigger, the creation is
rejected: the handler replies with the duplicate report, returns
`AWAITING_FILTER_TRIGGER` (the conversation stays in AwaitingTrigger), and
both the filter store and `user_data` are returned unchanged — so any input
whose normalization equals an existing trigger is rejected regardless of its
original casing or surrounding whitespace. -/
theorem C2_duplicate_trigger_rejected (ud : UserData) (cache : FiltersCache)
    (text : String) (cid : Int) (uid : Nat) (now : String) (saveOk : Bool)
    (h1 : ud.filter_chat_id = some cid)
    (h2 : (getAssoc (pyLower (pyStrip text)) ((getAssoc cid cache).getD [])).isSome = true) :
    receive_filter_trigger ud cache text uid now saveOk =
      some (cache, ud, AWAITING_FILTER_TRIGGER,
        [trigger_exists_message (pyLower (pyStrip text))]) := by
  obtain ⟨fd, hfd⟩ := Option.isSome_iff_exists.mp h2
  rw [receive_filter_trigger, h1]
  simp only [hfd]

/-- C2 witness: `"  Hello "` collides with the stored trigger `"hello"` in
chat 1: rejected, store and session unchanged. -/
theorem C2_duplicate_trigger_rejected_witness :
    receive_filter_trigger stagedUserData [((5 : Int), sampleChatTable)]
        ("  Hello ") 9 ("2025-02-02T00:00:00") true =
      some ([((5 : Int), sampleChatTable)], stagedUserData, AWAITING_FILTER_TRIGGER,
        [trigger_exists_message (pyLower (pyStrip ("  Hello ")))]) :=
  C2_duplicate_trigger_rejected stagedUserData [((5 : Int), sampleChatTable)]
    ("  Hello ") 5 9 ("2025-02-02T00:00:00") true (by decide) (by decide)

/-! ## C9: persistence failure is not fatal -/

/-- C9: when the durable write fails (`save_filters` returns false), the
handler has already inserted the new filter into the in-memory cache, warns
the user that persistence failed, still reports success, clears the session
data and returns `ConversationHandler.END` (Idle).  The new filter is
retrievable from the returned cache. -/
theorem C9_persistence_failure_nonfatal (ud : UserData) (cache : FiltersCache)
    (text : String) (cid : Int) (uid : Nat) (now : String)
    (h1 : ud.filter_chat_id = some cid)
    (h2 : getAssoc (pyLower (pyStrip text)) ((getAssoc cid cache).getD []) = none) :
    receive_filter_trigger ud cache text uid now false =
      some (setAssoc cid
              (setAssoc (pyLower (pyStrip text)) (mkFilterData ud uid now)
                ((getAssoc cid cache).getD []))
              cache,
            UserData.empty, ConversationHandler.END,
            [save_warning_message,
             confirmation_message (pyLower (pyStrip text)) (mkFilterData ud uid now)])
    ∧ getAssoc (pyLower (pyStrip text))
        ((getAssoc cid
          (setAssoc cid
            (setAssoc (pyLower (pyStrip text)) (mkFilterData ud uid now)
              ((getAssoc cid cache).getD []))
            cache)).getD []) = some (mkFilterData ud uid now) := by
  constructor
  · rw [receive_filter_trigger, h1]
    simp only [h2, Bool.false_eq_true, if_false, List.nil_append]
    rfl
  · rw [getAssoc_setAssoc_self]
    simp only [Option.getD_some]
    rw [getAssoc_setAssoc_self]

/-- C9 witness: a failed durable write for a new trigger `hi` in chat 5:
the returned cache contains the filter, the warning and the success report
are both sent, and the handler ends the conversation. -/
theorem C9_persistence_failure_nonfatal_witness :
    receive_filter_trigger stagedUserData [] ("hi") 9 ("2025-02-02T00:00:00") false =
      some (setAssoc (5 : Int)
              (setAssoc (pyLower (pyStrip ("hi")))
                (mkFilterData stagedUserData 9 ("2025-02-02T00:00:00"))
                ((getAssoc (5 : Int) ([] : FiltersCache)).getD []))
              [],
            UserData.empty, ConversationHandler.END,
            [save_warning_message,
             confirmation_message (pyLower (pyStrip ("hi")))
               (mkFilterData stagedUserData 9 ("2025-02-02T00:00:00"))])
    ∧ getAssoc (pyLower (pyStrip ("hi")))
        ((getAssoc (5 : Int)
          (setAssoc (5 : Int)
            (setAssoc (pyLower (pyStrip ("hi")))
              (mkFilterData stagedUserData 9 ("2025-02-02T00:00:00"))
              ((getAssoc (5 : Int) ([] : FiltersCache)).getD []))
            [])).getD []) =
        some (mkFilterData stagedUserData 9 ("2025-02-02T00:00:00")) :=
  C9_persistence_failure_nonfatal stagedUserData [] ("hi") 5 9
    ("2025-02-02T00:00:00") (by decide) (by decide)

/-! ## C10: the empty trigger is accepted -/

/-- C10: a message consisting only of whitespace normalizes (strip then
lower-case) to the empty string; when the chat has no filter under the empty
trigger, the duplicate check passes and a filter keyed by `""` is created and
stored — nothing in the handler rejects an empty trigger.  The concrete
conjunct shows a whitespace-only input indeed normalizing to `""`. -/
theorem C10_empty_trigger_accepted (ud : UserData) (cache : FiltersCache)
    (text : String) (cid : Int) (uid : Nat) (now : String) (saveOk : Bool)
    (h1 : ud.filter_chat_id = some cid)
    (h2 : pyStrip text = (""))
    (h3 : getAssoc ("") ((getAssoc cid cache).getD []) = none) :
    receive_filter_trigger ud cache text uid now saveOk =
      some (setAssoc cid
              (setAssoc ("") (mkFilterData ud uid now) ((getAssoc cid cache).getD []))
              cache,
            UserData.empty, ConversationHandler.END,
            (if saveOk then [] else [save_warning_message]) ++
              [confirmation_message ("") (mkFilterData ud uid now)])
    ∧ getAssoc ("")
        ((getAssoc cid
          (setAssoc cid
            (setAssoc ("") (mkFilterData ud uid now) ((getAssoc cid cache).getD []))
            cache)).getD []) = some (mkFilterData ud uid now)
    ∧ pyLower (pyStrip ("  \t  ")) = ("") := by
  have hnorm : pyLower (pyStrip text) = ("") := by
    rw [h2]
    decide
  refine ⟨?_, ?_, by decide⟩
  · rw [receive_filter_trigger, h1, hnorm]
    simp only [h3]
  · rw [getAssoc_setAssoc_self]
    simp only [Option.getD_some]
    rw [getAssoc_setAssoc_self]

/-- C10 witness: the whitespace-only input `"   "` in chat 1 with an empty
store creates and stores a filter under the empty-string trigger. -/
theorem C10_empty_trigger_accepted_witness :
    receive_filter_trigger stagedUserData [] ("   ") 9 ("2025-02-02T00:00:00") true =
      some (setAssoc (5 : Int)
              (setAssoc ("") (mkFilterData stagedUserData 9 ("2025-02-02T00:00:00"))
                ((getAssoc (5 : Int) ([] : FiltersCache)).getD []))
              [],
            UserData.empty, ConversationHandler.END,
            (if true then [] else [save_warning_message]) ++
              [confirmation_message ("")
                (mkFilterData stagedUserData 9 ("2025-02-02T00:00:00"))])
    ∧ getAssoc ("")
        ((getAssoc (5 : Int)
          (setAssoc (5 : Int)
            (setAssoc ("") (mkFilterData stagedUserData 9 ("2025-02-02T00:00:00"))
              ((getAssoc (5 : Int) ([] : FiltersCache)).getD []))
            [])).getD []) =
        some (mkFilterData stagedUserData 9 ("2025-02-02T00:00:00"))
    ∧ pyLower (pyStrip ("  \t  ")) = ("") :=
  C10_empty_trigger_accepted stagedUserData [] ("   ") 5 9 ("2025-02-02T00:00:00")
    true (by decide) (by decide) (by decide)

/-! ## Helper lemmas: decimal printing and parsing round trip -/

theorem natDigitsRevAux_lt10 (fuel : Nat) :
    ∀ n d, d ∈ natDigitsRevAux fuel n → d < 10 := by
  induction fuel with
  | zero => intro n d h; simp [natDigitsRevAux] at h
  | succ f ih =>
    intro n d h
    cases n with
    | zero => simp [natDigitsRevAux] at h
    | succ m =>
      simp only [natDigitsRevAux, List.mem_cons] at h
      cases h with
      | inl h => rw [h]; exact Nat.mod_lt _ (by norm_num)
      | inr h => exact ih _ _ h

theorem ofDigitsRev_natDigitsRevAux (fuel : Nat) :
    ∀ n, n ≤ fuel → ofDigitsRev (natDigitsRevAux fuel n) = n := by
  induction fuel with
  | zero =>
    intro n h
    have : n = 0 := Nat.le_zero.mp h
    rw [this]
    rfl
  | succ f ih =>
    intro n h
    cases n with
    | zero => rfl
    | succ m =>
      have hq : (m + 1) / 10 ≤ f := by
        have := Nat.div_lt_self (Nat.succ_pos m) (by norm_num : (1 : Nat) < 10)
        omega
      simp only [natDigitsRevAux, ofDigitsRev, ih _ hq]
      exact Nat.mod_add_div (m + 1) 10

theorem digitChar_spec (d : Nat) (hd : d < 10) :
    (digitChar d).isDigit = true ∧ (digitChar d).toNat - 48 = d := by
  interval_cases d <;> exact ⟨by decide, by decide⟩

theorem parseDigitsAux_map (ds : List Nat) :
    ∀ acc, (∀ d ∈ ds, d < 10) →
      parseDigitsAux acc (ds.map digitChar) =
        some (ds.foldl (fun a d => 10 * a + d) acc) := by
  induction ds with
  | nil => intro acc _; rfl
  | cons d rest ih =>
    intro acc h
    have hd := h d (List.mem_cons_self _ _)
    obtain ⟨h1, h2⟩ := digitChar_spec d hd
    simp only [List.map_cons, parseDigitsAux, h1, if_true, h2, List.foldl_cons]
    exact ih _ (fun x hx => h x (List.mem_cons_of_mem _ hx))

theorem foldl_reverse_digits (l : List Nat) :
    ∀ acc, l.reverse.foldl (fun a d => 10 * a + d) acc =
      acc * 10 ^ l.length + ofDigitsRev l := by
  induction l with
  | nil => intro acc; simp [ofDigitsRev]
  | cons d ds ih =>
    intro acc
    simp only [List.reverse_cons, List.foldl_append, ih, List.foldl_cons,
      List.foldl_nil, ofDigitsRev, List.length_cons]
    ring

theorem parseDigitsAux_pyStrNatChars (n : Nat) :
    parseDigitsAux 0 (pyStrNatChars n) = some n := by
  by_cases h : n = 0
  · rw [h]; decide
  · unfold pyStrNatChars
    rw [if_neg h]
    rw [parseDigitsAux_map _ 0
      (fun d hd => natDigitsRevAux_lt10 n n d (List.mem_reverse.mp hd))]
    rw [foldl_reverse_digits]
    simp [ofDigitsRev_natDigitsRevAux n n le_rfl]

theorem pyStrNatChars_ne_nil (n : Nat) : pyStrNatChars n ≠ [] := by
  by_cases h : n = 0
  · rw [h]; decide
  · unfold pyStrNatChars
    rw [if_neg h]
    intro hc
    rw [List.map_eq_nil_iff, List.reverse_eq_nil_iff] at hc
    cases n with
    | zero => exact h rfl
    | succ m => simp [natDigitsRevAux] at hc

theorem pyStrNatChars_isDigit (n : Nat) :
    ∀ c ∈ pyStrNatChars n, c.isDigit = true := by
  by_cases h : n = 0
  · rw [h]
    intro c hc
    rw [show pyStrNatChars 0 = ['0'] from rfl, List.mem_singleton] at hc
    rw [hc]
    decide
  · unfold pyStrNatChars
    rw [if_neg h]
    intro c hc
    obtain ⟨d, hd, hdc⟩ := List.mem_map.mp hc
    rw [← hdc]
    exact (digitChar_spec d (natDigitsRevAux_lt10 n n d (List.mem_reverse.mp hd))).1

theorem parseDigitsList_pyStrNatChars (n : Nat) :
    parseDigitsList (pyStrNatChars n) = some n := by
  cases hc : pyStrNatChars n with
  | nil => exact absurd hc (pyStrNatChars_ne_nil n)
  | cons c cs =>
    rw [parseDigitsList, ← hc]
    exact parseDigitsAux_pyStrNatChars n

theorem isDigit_ne_sign (c : Char) (h : c.isDigit = true) : c ≠ ('-') ∧ c ≠ ('+') := by
  constructor
  · intro hc; rw [hc] at h; exact absurd h (by decide)
  · intro hc; rw [hc] at h; exact absurd h (by decide)

/-- Python `int(str(i)) = i`. -/
theorem pyInt_pyStr (i : Int) : pyInt (pyStr i) = some i := by
  by_cases hneg : i < 0
  · rw [pyStr, if_pos hneg]
    show pyIntChars ('-' :: pyStrNatChars i.natAbs) = some i
    simp only [pyIntChars]
    rw [if_pos trivial]
    rw [parseDigitsList_pyStrNatChars]
    show some (-((i.natAbs : Int))) = some i
    congr 1
    omega
  · rw [pyStr, if_neg hneg]
    show pyIntChars (pyStrNatChars i.toNat) = some i
    cases hc : pyStrNatChars i.toNat with
    | nil => exact absurd hc (pyStrNatChars_ne_nil _)
    | cons c cs =>
      have hcd : c.isDigit = true :=
        pyStrNatChars_isDigit i.toNat c (by rw [hc]; exact List.mem_cons_self _ _)
      obtain ⟨hm, hp⟩ := isDigit_ne_sign c hcd
      simp only [pyIntChars]
      rw [if_neg hm, if_neg hp]
      rw [← hc, parseDigitsList_pyStrNatChars]
      show some (((i.toNat : Int))) = some i
      congr 1
      omega

/-! ## C7: save/load round trip -/

theorem intKeys_map_pyStr {V : Type} (st : List (Int × V)) :
    intKeys (st.map (fun p => (pyStr p.1, p.2))) = Except.ok st := by
  induction st with
  | nil => rfl
  | cons p rest ih =>
    simp only [List.map_cons, intKeys, pyInt_pyStr, ih]

/-- C7: for every filter store (any number of filters across any number of
chats, with integer chat ids), saving with `save_filters` and loading with
`load_filters` yields the original store: chat ids survive the
textual-to-numeric round trip (`int(str(k)) = k`, including negative group
ids) and the trigger table of each chat is carried through unchanged, including
entry order (the lists are equal as ordered lists). -/
theorem C7_save_load_roundtrip (st : List (Int × ChatTable)) :
    load_filters (save_filters st) = Except.ok st := by
  rw [save_filters, load_filters]
  exact intKeys_map_pyStr st

/-! ## C8: load failure handling -/

/-- C8 counterexample: the headline of the claim — loading never raises — is
false.  A present, readable file holding well-formed JSON whose top-level
object has the non-numeric key `x` makes `load_filters` raise an uncaught
`ValueError` (`int("x")`; only `JSONDecodeError` and `IOError` are caught). -/
theorem C8_counterexample :
    load_filters (StoredFile.validObj [(("x"), sampleChatTable)]) =
      Except.error ("ValueError: invalid literal for int() with base 10: x") := rfl

/-- C8 (amended): when the storage file is absent, unreadable (`IOError`), or
holds syntactically malformed JSON (`JSONDecodeError`), `load_filters`
returns the empty store rather than raising; but loading is not abort-free in
general — readable well-formed JSON that is not an object with numeric keys
raises an uncaught exception. -/
theorem C8_load_failure_handling :
    load_filters (StoredFile.absent : StoredFile ChatTable) = Except.ok []
    ∧ load_filters (StoredFile.unreadable : StoredFile ChatTable) = Except.ok []
    ∧ load_filters (StoredFile.invalidJson : StoredFile ChatTable) = Except.ok []
    ∧ load_filters (StoredFile.validNonObj : StoredFile ChatTable) =
        Except.error ("AttributeError: list object has no attribute items")
    ∧ load_filters (StoredFile.validObj [(("7abc"), sampleChatTable)]) =
        Except.error ("ValueError: invalid literal for int() with base 10: 7abc") :=
  ⟨rfl, rfl, rfl, rfl, rfl⟩

/-- C7 witness: the round trip at a concrete two-chat store with a negative
chat id. -/
theorem C7_save_load_roundtrip_witness :
    load_filters (save_filters [((-100123 : Int), sampleChatTable), ((5 : Int), [])]) =
      Except.ok [((-100123 : Int), sampleChatTable), ((5 : Int), [])] :=
  C7_save_load_roundtrip [((-100123 : Int), sampleChatTable), ((5 : Int), [])]
